import Mathlib

/-!
Shallow embedding of `src/sap_automator.py` (class `SAPAutomator`).

The external COM world (SAP GUI scripting engine, connections, sessions,
UI elements) is modelled by stub structures whose fields describe the
outcome of each external call the Python code performs: a call that can
raise is an `Except String` value carrying the Python exception's
`str(...)` text.  Exceptions raised by the automator itself are the two
kinds the module can let escape, `SAPConnectionError` and `ValueError`
(`PyError` below); inside a method body, before the surrounding
`try/except` classifies them, errors travel as their message strings.

Mutable attributes `self.session`, `self._connection`, `self._sap_gui_app`
become an explicit `AutomatorState` threaded through each method; methods
that mutate state return the post-state even on the error path, exactly as
a Python exception leaves the mutated `self` behind.

Real time is discrete: the readiness poll advances one second per
1-second sleep, and the connection opener's single 3-second wait is
recorded in a trace so that "how many count checks / how long waited" is
part of the observable result.
-/

namespace SapAutomator

/-- Python substring test `sub in s`, over code points
(`String.data` is the list of code points, matching CPython's `in`). -/
def strContains (s sub : String) : Bool := decide (sub.data <:+: s.data)

/-- Python `str.lower()` applied code-point-wise (the messages the code
inspects are ASCII, where `Char.toLower` agrees with CPython). -/
def pyLower (s : String) : String := ⟨s.data.map Char.toLower⟩

/-- The two exception kinds `SAPAutomator` lets escape to its caller:
`SAPConnectionError` (a subclass of `SAPAutomatorError`) and the builtin
`ValueError`, each carrying its message. -/
inductive PyError where
  | sapConnectionError (msg : String)
  | valueError (msg : String)
deriving DecidableEq, Repr

/-- Message text carried by an exception (`str(e)`). -/
def PyError.message : PyError → String
  | .sapConnectionError m => m
  | .valueError m => m

/-- Whether the exception is of the `SAPConnectionError` kind. -/
def PyError.isConnectionKind : PyError → Bool
  | .sapConnectionError _ => true
  | .valueError _ => false

/-- Constructor arguments of `SAPAutomator.__init__`. -/
structure Config where
  sap_exe_path : String
  system_name : String
  client : String
  language : String
  user : String
  password : String

/-- Stub behaviour of one SAP session COM object (`self.session`), covering
every call the automator makes on it:
* `hasFindById` — result of `hasattr(self.session, 'findById')`;
* `lookup id` — outcome of `session.findById(id)` for the login-screen
  element ids (error = the raised exception's text; the subsequent `.text`
  write or `.press()` on a successfully located element is recorded by the
  caller and does not itself raise in this model);
* `messageType` / `statusText` — `sbar.MessageType` and `sbar.Text` of the
  status bar returned by `findById("wnd[0]/sbar")`;
* `closeWindow` — outcome of `session.findById("wnd[0]").close()`;
* `msgBoxPresent k` — outcome of the k-th `session.findById("wnd[1]", False)`
  check in `check_msgBox`: `.ok true` = popup present, `.ok false` = absent
  (`findById(..., False)` returns `None` instead of raising),
  `.error m` = the lookup call itself raised. -/
structure Session where
  hasFindById : Bool
  lookup : String → Except String Unit
  messageType : String
  statusText : String
  closeWindow : Except String Unit
  msgBoxPresent : Nat → Except String Bool

/-- Stub behaviour of a connection COM object: the two successive reads of
`connection.Sessions.Count` that `_connect_to_system` can perform (before
and after its 3-second wait), `connection.Children(i)`, and
`connection.CloseConnection()`. -/
structure Connection where
  sessionsCount1 : Nat
  sessionsCount2 : Nat
  children : Nat → Session
  closeConn : Except String Unit

/-- Stub behaviour of `application = sap_gui_app.GetScriptingEngine`:
`openConnection` is the outcome of
`application.OpenConnection(system_name, True)` — it may raise, return
`None` (`.ok none`) or return a connection object. -/
structure ScriptingEngine where
  openConnection : Except String (Option Connection)

/-- Stub behaviour of the object returned by
`win32com.client.GetObject("SAPGUI")`: reading the `GetScriptingEngine`
property may itself raise. -/
structure Engine where
  getScriptingEngine : Except String ScriptingEngine

/-- The three handle attributes of `SAPAutomator`:
`self.session`, `self._connection`, `self._sap_gui_app`. -/
structure AutomatorState where
  session : Option Session
  connection : Option Connection
  sapGuiApp : Option Engine

/-- State right after `__init__`: all three handles are `None`. -/
def initialState : AutomatorState := ⟨none, none, none⟩

/-- Outcome of `subprocess.Popen(self.sap_exe_path)`. -/
inductive LaunchResult where
  | launched
  | fileNotFound
  | failed (msg : String)

/-- Stub behaviour of the process/COM environment used by
`_open_sap_logon`: the launch outcome and, for each elapsed second `t`,
the outcome of `win32com.client.GetObject("SAPGUI")` (`none` = the call
raised, so the loop sleeps one second and retries). -/
structure Env where
  launch : LaunchResult
  getObject : Nat → Option Engine

/-- Message of the poller's timeout error (source line 153). -/
def timeoutMessage (timeout : Nat) : String :=
  "Timeout: SAP GUI Scripting Engine não ficou disponível em " ++ toString timeout ++ " segundos."

/-- The polling loop of `_open_sap_logon` (source lines 141-153):
while elapsed time `t` is below `timeout`, try `GetObject("SAPGUI")`;
on success return the engine (and the time it took), on an exception
sleep 1 second (advance `t`) and retry; once `t` reaches the timeout,
raise the timeout `SAPConnectionError`.  The error also carries the
elapsed time at which it is raised. -/
def pollEngine (env : Env) (timeout t : Nat) : Except (PyError × Nat) (Engine × Nat) :=
  if _h : t < timeout then
    match env.getObject t with
    | some e => .ok (e, t)
    | none => pollEngine env timeout (t + 1)
  else
    .error (.sapConnectionError (timeoutMessage timeout), t)
termination_by timeout - t

/-- Method `_open_sap_logon` (source lines 118-153): launch `saplogon.exe`
(launch failures raise `SAPConnectionError` immediately, with no polling),
then run the readiness poll; a successful poll stores the engine in
`self._sap_gui_app`. -/
def open_sap_logon (cfg : Config) (env : Env) (timeout : Nat) (st : AutomatorState) :
    Except PyError Unit × AutomatorState :=
  match env.launch with
  | .fileNotFound =>
      (.error (.sapConnectionError ("Executável SAP não encontrado em " ++ cfg.sap_exe_path)), st)
  | .failed m =>
      (.error (.sapConnectionError ("Erro inesperado ao tentar abrir o SAP Logon: " ++ m)), st)
  | .launched =>
      match pollEngine env timeout 0 with
      | .ok (e, _) => (.ok (), { st with sapGuiApp := some e })
      | .error (e, _) => (.error e, st)

/-- Observable trace of `_connect_to_system`: how many times
`connection.Sessions.Count` was read and how many seconds were spent in
`time.sleep` (0 or the single 3-second wait). -/
structure ConnectTrace where
  countChecks : Nat
  waitedSeconds : Nat
deriving DecidableEq, Repr

/-- The `except Exception` clause of `_connect_to_system` (source lines
187-189): every exception escaping the `try` body — including the
`SAPConnectionError`s raised inside it — is re-raised as a
`SAPConnectionError` whose message wraps the original text. -/
def wrapConnectError (cfg : Config) (m : String) : PyError :=
  .sapConnectionError ("Erro ao conectar ao sistema SAP " ++ cfg.system_name ++ ": " ++ m)

/-- Message raised when `OpenConnection` returns `None` (source line 172). -/
def nullConnectionMessage (cfg : Config) : String :=
  "Falha ao abrir conexão para o sistema " ++ cfg.system_name ++ ". Objeto de conexão é nulo."

/-- Message raised when no session exists after the single retry
(source line 185). -/
def noSessionMessage (cfg : Config) : String :=
  "Nenhuma sessão encontrada para a conexão " ++ cfg.system_name ++ " após a abertura e espera."

/-- CPython's message for attribute access on `None`, raised by
`self._sap_gui_app.GetScriptingEngine` when no engine handle was ever
acquired. -/
def noneAttributeMessage : String :=
  "'NoneType' object has no attribute 'GetScriptingEngine'"

/-- Method `_connect_to_system` (source lines 155-189).  Inside a `try`
whose `except` is `wrapConnectError`:
read `self._sap_gui_app.GetScriptingEngine` (an `AttributeError` if the
handle is `None`), call `OpenConnection(system_name, True)` and store the
result in `self._connection` (even when it is `None`), raise if it is
`None`; otherwise read `Sessions.Count` — if positive, bind
`self.session = connection.Children(0)`; if zero, sleep 3 seconds and
re-read exactly once, binding `Children(0)` on a positive recheck and
raising the no-session error otherwise. -/
def connect_to_system (cfg : Config) (st : AutomatorState) :
    Except PyError Unit × AutomatorState × ConnectTrace :=
  match st.sapGuiApp with
  | none => (.error (wrapConnectError cfg noneAttributeMessage), st, ⟨0, 0⟩)
  | some eng =>
      match eng.getScriptingEngine with
      | .error m => (.error (wrapConnectError cfg m), st, ⟨0, 0⟩)
      | .ok app =>
          match app.openConnection with
          | .error m => (.error (wrapConnectError cfg m), st, ⟨0, 0⟩)
          | .ok oc =>
              let st1 := { st with connection := oc }
              match oc with
              | none => (.error (wrapConnectError cfg (nullConnectionMessage cfg)), st1, ⟨0, 0⟩)
              | some c =>
                  if 0 < c.sessionsCount1 then
                    (.ok (), { st1 with session := some (c.children 0) }, ⟨1, 0⟩)
                  else if 0 < c.sessionsCount2 then
                    (.ok (), { st1 with session := some (c.children 0) }, ⟨2, 3⟩)
                  else
                    (.error (wrapConnectError cfg (noSessionMessage cfg)), st1, ⟨2, 3⟩)

/-- Element ids used by `_login`, exactly as in the source. -/
def mandtId : String := "wnd[0]/usr/txtRSYST-MANDT"

/-- Username field id. -/
def bnameId : String := "wnd[0]/usr/txtRSYST-BNAME"

/-- Password field id. -/
def bcodeId : String := "wnd[0]/usr/pwdRSYST-BCODE"

/-- Language field id. -/
def languId : String := "wnd[0]/usr/txtRSYST-LANGU"

/-- Enter / submit button id. -/
def loginButtonId : String := "wnd[0]/tbar[0]/btn[0]"

/-- Status bar id. -/
def sbarId : String := "wnd[0]/sbar"

/-- Message of the `SAPConnectionError` raised when the session object
lacks `findById` (source line 209). -/
def invalidSessionMessage : String :=
  "Objeto de sessão inválido ou não suporta 'findById'. Ocorreu um problema na conexão."

/-- Message of the `SAPConnectionError` raised when the client-id
(Mandante) field cannot be located (source line 216): the screen is judged
not to be the login screen. -/
def mandanteMessage : String := "Mandante não encontrado na tela"

/-- The message types of `status_bar.MessageType` that make `_login` raise
(source line 228): Error, Abort, Exit. -/
def rejectingTypes : List String := ["e", "a", "x"]

/-- One observable write performed by `_login` on the login screen, with
the value written (`mandt_field.text = self.client`, etc.). -/
inductive WriteAction where
  | setClient (value : String)
  | setUser (value : String)
  | setPassword (value : String)
  | setLanguage (value : String)
  | pressEnter
deriving DecidableEq, Repr

/-- The `try` body of `_login` (source lines 207-233), before its
`except Exception` clause classifies the escaping exception.  Returns the
outcome (error = the escaping exception's text) together with the list of
writes (`.text = ...` assignments and the `.press()`) performed, in order.
Each `findById` may raise; a raise aborts the sequence at that point. -/
def loginBody (cfg : Config) (s : Session) : Except String Unit × List WriteAction :=
  if s.hasFindById then
    match s.lookup mandtId with
    | .error _ => (.error mandanteMessage, [])
    | .ok _ =>
        let w1 := [WriteAction.setClient cfg.client]
        match s.lookup bnameId with
        | .error m => (.error m, w1)
        | .ok _ =>
            let w2 := w1 ++ [WriteAction.setUser cfg.user]
            match s.lookup bcodeId with
            | .error m => (.error m, w2)
            | .ok _ =>
                let w3 := w2 ++ [WriteAction.setPassword cfg.password]
                match s.lookup languId with
                | .error m => (.error m, w3)
                | .ok _ =>
                    let w4 := w3 ++ [WriteAction.setLanguage cfg.language]
                    match s.lookup loginButtonId with
                    | .error m => (.error m, w4)
                    | .ok _ =>
                        let w5 := w4 ++ [WriteAction.pressEnter]
                        match s.lookup sbarId with
                        | .error m => (.error m, w5)
                        | .ok _ =>
                            if rejectingTypes.contains (pyLower s.messageType) then
                              (.error ("Erro de login SAP: " ++ s.statusText), w5)
                            else
                              (.ok (), w5)
  else
    (.error invalidSessionMessage, [])

/-- The `except Exception as erro` clause of `_login` (source lines
235-240): the escaping exception is classified by inspecting its text —
if it contains `"findById"` or its lowercasing contains `"element"`, a
`ValueError` is raised, otherwise a `SAPConnectionError`, each wrapping
the original text. -/
def classifyLoginError (m : String) : PyError :=
  if strContains m "findById" || strContains (pyLower m) "element" then
    .valueError ("Erro ao encontrar elemento da GUI durante o login: " ++ m)
  else
    .sapConnectionError ("Erro inesperado durante o login SAP: " ++ m)

/-- Method `_login` (source lines 191-240): raise directly (unclassified)
when `self.session` is `None`; otherwise run the body and classify any
escaping exception. -/
def login (cfg : Config) (st : AutomatorState) : Except PyError Unit × List WriteAction :=
  match st.session with
  | none => (.error (.sapConnectionError "Sessão SAP não está inicializada para login."), [])
  | some s =>
      match loginBody cfg s with
      | (.ok _, w) => (.ok (), w)
      | (.error m, w) => (.error (classifyLoginError m), w)

/-- The `try` body of `initialize_connection` (source lines 263-271):
optionally `_open_sap_logon()` (with its default 30-second timeout), then
`_connect_to_system()`, then `_login()`; threads the handle state and
stops at the first phase that raises, returning that phase's exception
and the state as mutated so far. -/
def initBody (cfg : Config) (env : Env) (openNewLogon : Bool) (st0 : AutomatorState) :
    Except PyError Unit × AutomatorState :=
  match (if openNewLogon then open_sap_logon cfg env 30 st0 else (.ok (), st0)) with
  | (.error e, st1) => (.error e, st1)
  | (.ok _, st1) =>
      match connect_to_system cfg st1 with
      | (.error e, st2, _) => (.error e, st2)
      | (.ok _, st2, _) =>
          match login cfg st2 with
          | (.error e, _) => (.error e, st2)
          | (.ok _, _) => (.ok (), st2)

/-- Method `initialize_connection` (source lines 242-278): run the body;
on success return `self.session`; on any exception set all three handles
to `None` and re-raise the very same exception (`raise e`). -/
def initialize_connection (cfg : Config) (env : Env) (openNewLogon : Bool)
    (st0 : AutomatorState) : Except PyError (Option Session) × AutomatorState :=
  match initBody cfg env openNewLogon st0 with
  | (.ok _, st) => (.ok st.session, st)
  | (.error e, _) => (.error e, ⟨none, none, none⟩)

/-- Method `get_session` (source lines 280-286): returns `self.session`. -/
def get_session (st : AutomatorState) : Option Session := st.session

/-- The `try` body of `close_connection` (source lines 293-307): if a
session is held, `session.findById("wnd[0]").close()` (may raise); then if
a connection is held, `connection.CloseConnection()` (may raise). -/
def closeBody (st : AutomatorState) : Except String Unit :=
  match (match st.session with
         | some s => s.closeWindow
         | none => .ok ()) with
  | .error m => .error m
  | .ok _ =>
      match st.connection with
      | some c => c.closeConn
      | none => .ok ()

/-- Method `close_connection` (source lines 288-311): run the body; both
on success and in the `except` clause, `self.session` and
`self._connection` are set to `None` and nothing is re-raised
(`self._sap_gui_app` is left untouched). -/
def close_connection (st : AutomatorState) : AutomatorState :=
  match closeBody st with
  | .ok _ => { st with session := none, connection := none }
  | .error _ => { st with session := none, connection := none }

/-- How the inner `while True` loop of `check_msgBox` ended. -/
inductive LoopExit where
  | finished (handled : Bool) (sent : Nat)
  | faulted (msg : String) (handled : Bool) (sent : Nat)
deriving DecidableEq, Repr

/-- The `while True` loop of `check_msgBox` (source lines 327-334),
instrumented with the number of `sendVKey(0)` confirmations sent.  `k` is
the index of the next presence check, `sent` the keys sent so far,
`handled` the current value of `msg_handled`.  The source loop has no
iteration cap, so the model takes a `fuel` bound: `none` means the loop
is still spinning after `fuel` iterations. -/
def msgLoop (s : Session) : Nat → Nat → Nat → Bool → Option LoopExit
  | 0, _, _, _ => none
  | fuel + 1, k, sent, handled =>
      match s.msgBoxPresent k with
      | .error m => some (.faulted m handled sent)
      | .ok true => msgLoop s fuel (k + 1) (sent + 1) true
      | .ok false => some (.finished handled sent)

/-- Method `check_msgBox` (source lines 313-346): run the drain loop; if
the loop ends by `break` (popup absent) or by an exception (the
surrounding `try/except` logs and swallows it), return `msg_handled`
together with the instrumented key count.  `none` = the unbounded source
loop has not terminated within `fuel` iterations. -/
def check_msgBox (s : Session) (fuel : Nat) : Option (Bool × Nat) :=
  match msgLoop s fuel 0 0 false with
  | none => none
  | some (.finished h n) => some (h, n)
  | some (.faulted _ h n) => some (h, n)

/-- The element ids of the credential-entry sequence other than the
client-id field: username, secret, language, submit control, status
line — the lookups whose faults escape `_login`'s inner `try` with their
own message. -/
def credentialFieldIds : List String := [bnameId, bcodeId, languId, loginButtonId, sbarId]

/-- Stub presence behaviour: the popup is present on exactly the first
`n` checks and absent from then on. -/
def presentFor (n : Nat) : Nat → Except String Bool :=
  fun k => .ok (decide (k < n))

/-- A concrete configuration used to evaluate the model. -/
def cfg0 : Config :=
  { sap_exe_path := "C:/sap/saplogon.exe", system_name := "PRD", client := "300",
    language := "PT", user := "jdoe", password := "hunter2" }

/-- Environment whose engine lookup raises on every attempt. -/
def envNever : Env := ⟨.launched, fun _ => none⟩

/-- Environment whose `saplogon.exe` launch fails with `FileNotFoundError`. -/
def envNotFound : Env := ⟨.fileNotFound, fun _ => none⟩

/-- A benign session stub: every element present, status type `S`, no popup. -/
def dummySession : Session :=
  { hasFindById := true, lookup := fun _ => .ok (), messageType := "S", statusText := "",
    closeWindow := .ok (), msgBoxPresent := fun _ => .ok false }

/-- Engine whose `OpenConnection` returns `None`. -/
def engNullConn : Engine := ⟨.ok ⟨.ok none⟩⟩

/-- State holding `engNullConn` as the scripting-engine handle. -/
def stNullConn : AutomatorState := ⟨none, none, some engNullConn⟩

/-- Connection reporting one session on the first count check. -/
def connReady1 : Connection := ⟨1, 0, fun _ => dummySession, .ok ()⟩

/-- Connection reporting zero sessions, then one after the 3-second wait. -/
def connReady2 : Connection := ⟨0, 1, fun _ => dummySession, .ok ()⟩

/-- Connection reporting zero sessions on both count checks. -/
def connEmpty : Connection := ⟨0, 0, fun _ => dummySession, .ok ()⟩

/-- Engine opening `connReady1`. -/
def engReady1 : Engine := ⟨.ok ⟨.ok (some connReady1)⟩⟩

/-- Engine opening `connReady2`. -/
def engReady2 : Engine := ⟨.ok ⟨.ok (some connReady2)⟩⟩

/-- Engine opening `connEmpty`. -/
def engEmpty : Engine := ⟨.ok ⟨.ok (some connEmpty)⟩⟩

/-- State holding `engReady1`. -/
def stReady1 : AutomatorState := ⟨none, none, some engReady1⟩

/-- State holding `engReady2`. -/
def stReady2 : AutomatorState := ⟨none, none, some engReady2⟩

/-- State holding `engEmpty`. -/
def stEmpty : AutomatorState := ⟨none, none, some engEmpty⟩

/-- Session whose status line rejects (`MessageType = "E"`) with a status
text that happens to contain the word `element`. -/
def sessRejectElem : Session :=
  { dummySession with messageType := "E", statusText := "element missing" }

/-- State logged in on `sessRejectElem`. -/
def stRejectElem : AutomatorState := ⟨some sessRejectElem, none, none⟩

/-- Session whose status line rejects (`MessageType = "E"`) with an
ordinary status text. -/
def sessRejectPlain : Session :=
  { dummySession with messageType := "E", statusText := "Senha incorreta" }

/-- State holding `sessRejectPlain`. -/
def stRejectPlain : AutomatorState := ⟨some sessRejectPlain, none, none⟩

/-- State holding the benign `dummySession` (status type `S`). -/
def stTypeOk : AutomatorState := ⟨some dummySession, none, none⟩

/-- Session whose username-field lookup raises with a message that
contains neither `findById` nor `element`. -/
def sessPlainFault : Session :=
  { dummySession with
    lookup := fun id => if id == bnameId then .error "controle nao localizado" else .ok () }

/-- State holding `sessPlainFault`. -/
def stPlainFault : AutomatorState := ⟨some sessPlainFault, none, none⟩

/-- Session whose language-field lookup raises with a message containing
the word `element`. -/
def sessElemFault : Session :=
  { dummySession with
    lookup := fun id => if id == languId then .error "element not found" else .ok () }

/-- State holding `sessElemFault`. -/
def stElemFault : AutomatorState := ⟨some sessElemFault, none, none⟩

/-- Session whose client-id (Mandante) field lookup always raises. -/
def sessNoMandt : Session :=
  { dummySession with
    lookup := fun id => if id == mandtId then .error "screen mismatch" else .ok () }

/-- State holding `sessNoMandt`. -/
def stNoMandt : AutomatorState := ⟨some sessNoMandt, none, none⟩

/-- Session on which the popup is present at every check. -/
def sessAlwaysPresent : Session :=
  { dummySession with msgBoxPresent := fun _ => .ok true }

/-- Session on which the popup is present for 3 checks, then absent. -/
def sessDrain3 : Session :=
  { dummySession with msgBoxPresent := presentFor 3 }

/-- Session whose popup is present twice, after which the lookup raises. -/
def sessFaultAt2 : Session :=
  { dummySession with
    msgBoxPresent := fun k => if k < 2 then .ok true else .error "COM fault" }

/-- Session whose window close raises. -/
def sessCloseThrows : Session := { dummySession with closeWindow := .error "close failed" }

/-- Connection whose `CloseConnection` raises. -/
def connCloseThrows : Connection := ⟨1, 1, fun _ => dummySession, .error "close failed"⟩

/-- State in which both teardown calls of `close_connection` raise. -/
def stCloseThrows : AutomatorState := ⟨some sessCloseThrows, some connCloseThrows, none⟩

theorem strContains_append_append (a b t : String) : strContains (a ++ (b ++ t)) t = true := by
  simp only [strContains, decide_eq_true_eq]
  rw [String.data_append, String.data_append]
  exact ((List.suffix_append b.data t.data).trans (List.suffix_append a.data _)).isInfix

theorem classifyLoginError_kind (m : String) :
    (classifyLoginError m).isConnectionKind =
      !(strContains m "findById" || strContains (pyLower m) "element") := by
  unfold classifyLoginError
  split <;> rename_i h <;> simp [PyError.isConnectionKind, h]

theorem classifyLoginError_message (m : String) :
    (classifyLoginError m).message =
      (if strContains m "findById" || strContains (pyLower m) "element"
       then "Erro ao encontrar elemento da GUI durante o login: "
       else "Erro inesperado durante o login SAP: ") ++ m := by
  unfold classifyLoginError
  split <;> rename_i h <;> simp [PyError.message, h]

theorem pollEngine_never_aux (env : Env) (hg : ∀ t, env.getObject t = none) :
    ∀ (n t : Nat), pollEngine env (t + n) t =
      .error (.sapConnectionError (timeoutMessage (t + n)), t + n) := by
  intro n
  induction n with
  | zero =>
      intro t
      rw [pollEngine]
      simp
  | succ n ih =>
      intro t
      rw [pollEngine]
      have h1 : t < t + (n + 1) := by omega
      simp only [h1, dite_true, hg]
      have h2 : t + (n + 1) = (t + 1) + n := by omega
      rw [h2]
      exact ih (t + 1)

/-- Claim C9: for every timeout `T` and an engine stub whose every
`GetObject` attempt raises (is never ready), the readiness poller raises
the timeout `SAPConnectionError` ("scripting engine unavailable") after
exactly `T` seconds of 1-second polls — never earlier, never
indefinitely — with every throwing attempt retried rather than surfaced;
`_open_sap_logon` propagates exactly that error. -/
theorem readiness_poller_times_out (cfg : Config) (env : Env) (T : Nat) (st : AutomatorState)
    (hl : env.launch = .launched) (hg : ∀ t, env.getObject t = none) :
    pollEngine env T 0 = .error (.sapConnectionError (timeoutMessage T), T)
    ∧ open_sap_logon cfg env T st = (.error (.sapConnectionError (timeoutMessage T)), st) := by
  have hp : pollEngine env T 0 = .error (.sapConnectionError (timeoutMessage T), T) := by
    have := pollEngine_never_aux env hg T 0
    simpa using this
  refine ⟨hp, ?_⟩
  simp [open_sap_logon, hl, hp]

/-- Witness for C9 at `T = 2` on the always-raising environment. -/
theorem readiness_poller_times_out_witness :
    pollEngine envNever 2 0 = .error (.sapConnectionError (timeoutMessage 2), 2)
    ∧ open_sap_logon cfg0 envNever 2 initialState =
        (.error (.sapConnectionError (timeoutMessage 2)), initialState) :=
  readiness_poller_times_out cfg0 envNever 2 initialState rfl (fun _ => rfl)

theorem msgLoop_presentFor_eq (s : Session) (N : Nat) (hp : s.msgBoxPresent = presentFor N) :
    ∀ (fuel k sent : Nat) (h : Bool), N - k < fuel → k ≤ N →
      msgLoop s fuel k sent h = some (.finished (h || decide (k < N)) (sent + (N - k))) := by
  intro fuel
  induction fuel with
  | zero => intro k sent h hfuel _; omega
  | succ fuel ih =>
      intro k sent h _ hk
      rw [msgLoop, hp]
      by_cases hkN : k < N
      · simp only [presentFor, decide_eq_true hkN]
        have := ih (k + 1) (sent + 1) true (by omega) (by omega)
        rw [this]
        have harith : sent + 1 + (N - (k + 1)) = sent + (N - k) := by omega
        simp [harith, hkN]
      · have hkeq : k = N := by omega
        simp [presentFor, hkN, hkeq]

/-- Claim C7: given a session stub on which the popup is present for
exactly `N` consecutive checks and then absent, `check_msgBox` sends
exactly `N` confirmation keys and returns `msg_handled = (0 < N)` — in
particular `true` for any `N ≥ 1`, and `false` with zero keys sent for
the always-absent stub (`N = 0`); `fuel` is any bound large enough for
the loop to finish (`N < fuel`). -/
theorem drain_loop_counts (s : Session) (N fuel : Nat)
    (hp : s.msgBoxPresent = presentFor N) (hf : N < fuel) :
    check_msgBox s fuel = some (decide (0 < N), N) := by
  unfold check_msgBox
  rw [msgLoop_presentFor_eq s N hp fuel 0 0 false (by omega) (by omega)]
  simp

/-- Witness for C7: popup present for exactly 3 checks sends 3 keys and
returns `true`; always absent sends none and returns `false`. -/
theorem drain_loop_counts_witness :
    check_msgBox sessDrain3 10 = some (true, 3)
    ∧ check_msgBox dummySession 10 = some (false, 0) := by
  constructor
  · have := drain_loop_counts sessDrain3 3 10 rfl (by omega)
    simpa using this
  · have := drain_loop_counts dummySession 0 10 rfl (by omega)
    simpa using this

theorem msgLoop_alwaysPresent_none (s : Session) (hp : ∀ k, s.msgBoxPresent k = .ok true) :
    ∀ (fuel k sent : Nat) (h : Bool), msgLoop s fuel k sent h = none := by
  intro fuel
  induction fuel with
  | zero => intro k sent h; rfl
  | succ fuel ih =>
      intro k sent h
      rw [msgLoop, hp k]
      exact ih (k + 1) (sent + 1) true

/-- Claim C3 (the code falsifies it): on a session stub that reports the
popup present at every check, the `while True` drain loop of
`check_msgBox` never terminates — for every iteration bound `fuel` the
loop is still running (`none`), so the loop does not terminate for every
stub behaviour as the claim requires. -/
theorem drain_loop_unbounded (s : Session) (fuel : Nat)
    (hp : ∀ k, s.msgBoxPresent k = .ok true) :
    check_msgBox s fuel = none := by
  unfold check_msgBox
  rw [msgLoop_alwaysPresent_none s hp fuel 0 0 false]

/-- Witness for C3's divergence theorem at a concrete always-present stub
and bound. -/
theorem drain_loop_unbounded_witness : check_msgBox sessAlwaysPresent 17 = none :=
  drain_loop_unbounded sessAlwaysPresent 17 (fun _ => rfl)

theorem msgLoop_faulted_eq (s : Session) (m : String) :
    ∀ (d fuel k sent : Nat) (h : Bool),
      (∀ j, j < d → s.msgBoxPresent (k + j) = .ok true) →
      s.msgBoxPresent (k + d) = .error m → d < fuel →
      msgLoop s fuel k sent h = some (.faulted m (h || decide (0 < d)) (sent + d)) := by
  intro d
  induction d with
  | zero =>
      intro fuel k sent h _ herr hfuel
      match fuel, hfuel with
      | fuel + 1, _ =>
        rw [msgLoop]
        simp only [Nat.add_zero] at herr
        simp [herr]
  | succ d ih =>
      intro fuel k sent h hok herr hfuel
      match fuel, hfuel with
      | fuel + 1, _ =>
        rw [msgLoop]
        have h0 : s.msgBoxPresent k = .ok true := by
          have := hok 0 (by omega)
          simpa using this
        simp only [h0]
        have hok' : ∀ j, j < d → s.msgBoxPresent (k + 1 + j) = .ok true := by
          intro j hj
          have := hok (j + 1) (by omega)
          rwa [show k + (j + 1) = k + 1 + j by omega] at this
        have herr' : s.msgBoxPresent (k + 1 + d) = .error m := by
          rwa [show k + (d + 1) = k + 1 + d by omega] at herr
        have := ih fuel (k + 1) (sent + 1) true hok' herr' (by omega)
        rw [this]
        have harith : sent + 1 + d = sent + (d + 1) := by omega
        simp [harith]

/-- Claim C8: neither the drain loop nor `close_connection` propagates a
fault.  First conjunct: if the popup lookup raises at the `k`-th check
(after `k` present checks), `check_msgBox` still returns its boolean
(`msg_handled = (0 < k)`, with `k` keys sent) instead of raising.  Second
conjunct: for every state — including states whose session-close and
connection-close stubs both raise — `close_connection` returns normally
with the session and connection handles null. -/
theorem best_effort_cleanup :
    (∀ (s : Session) (k fuel : Nat) (m : String),
        (∀ j, j < k → s.msgBoxPresent j = .ok true) →
        s.msgBoxPresent k = .error m → k < fuel →
        check_msgBox s fuel = some (decide (0 < k), k))
    ∧ ∀ st : AutomatorState,
        (close_connection st).session = none ∧ (close_connection st).connection = none := by
  constructor
  · intro s k fuel m hok herr hfuel
    unfold check_msgBox
    have hok0 : ∀ j, j < k → s.msgBoxPresent (0 + j) = .ok true := by
      intro j hj
      simpa using hok j hj
    have herr0 : s.msgBoxPresent (0 + k) = .error m := by simpa using herr
    rw [msgLoop_faulted_eq s m k fuel 0 0 false hok0 herr0 hfuel]
    simp
  · intro st
    unfold close_connection
    cases hcb : closeBody st <;> simp

/-- Witness for C8: a stub that is present twice then raises yields
`(true, 2)`, and `close_connection` on a state whose two teardown stubs
both raise still nulls both handles. -/
theorem best_effort_cleanup_witness :
    check_msgBox sessFaultAt2 5 = some (true, 2)
    ∧ (close_connection stCloseThrows).session = none
    ∧ (close_connection stCloseThrows).connection = none := by
  refine ⟨?_, best_effort_cleanup.2 stCloseThrows⟩
  have := best_effort_cleanup.1 sessFaultAt2 2 5 "COM fault"
    (by intro j hj; simp [sessFaultAt2, dummySession, hj]) rfl (by omega)
  simpa using this

/-- Claim C2: the connection opener's algorithm.  With the engine handle
in place: a `None` connection fails as a `SAPConnectionError` wrapping the
connection-open-failed message, with zero `Sessions.Count` checks; a
positive count on the first check binds `Children(0)` after one check and
no wait; a zero first count waits the single 3-second wait and rechecks
exactly once (two checks total), binding `Children(0)` when the recheck is
positive; a zero count on both checks fails as a `SAPConnectionError`
wrapping the no-session-produced message, still after exactly one
wait-and-recheck. -/
theorem connection_opener_algorithm (cfg : Config) (st : AutomatorState)
    (eng : Engine) (app : ScriptingEngine)
    (he : st.sapGuiApp = some eng) (hg : eng.getScriptingEngine = .ok app) :
    (app.openConnection = .ok none →
      connect_to_system cfg st =
        (.error (wrapConnectError cfg (nullConnectionMessage cfg)),
         { st with connection := none }, ⟨0, 0⟩))
    ∧ (∀ c : Connection, app.openConnection = .ok (some c) → 0 < c.sessionsCount1 →
        connect_to_system cfg st =
          (.ok (), { st with connection := some c, session := some (c.children 0) }, ⟨1, 0⟩))
    ∧ (∀ c : Connection, app.openConnection = .ok (some c) →
        c.sessionsCount1 = 0 → 0 < c.sessionsCount2 →
        connect_to_system cfg st =
          (.ok (), { st with connection := some c, session := some (c.children 0) }, ⟨2, 3⟩))
    ∧ (∀ c : Connection, app.openConnection = .ok (some c) →
        c.sessionsCount1 = 0 → c.sessionsCount2 = 0 →
        connect_to_system cfg st =
          (.error (wrapConnectError cfg (noSessionMessage cfg)),
           { st with connection := some c }, ⟨2, 3⟩)) := by
  refine ⟨?_, ?_, ?_, ?_⟩
  · intro hoc
    simp [connect_to_system, he, hg, hoc]
  · intro c hoc h1
    simp [connect_to_system, he, hg, hoc, h1]
  · intro c hoc h1 h2
    simp [connect_to_system, he, hg, hoc, h1, h2]
  · intro c hoc h1 h2
    simp [connect_to_system, he, hg, hoc, h1, h2]

/-- Witness for C2: the four branches evaluated on concrete engine stubs. -/
theorem connection_opener_algorithm_witness :
    connect_to_system cfg0 stNullConn =
      (.error (wrapConnectError cfg0 (nullConnectionMessage cfg0)),
       { stNullConn with connection := none }, ⟨0, 0⟩)
    ∧ connect_to_system cfg0 stReady1 =
        (.ok (),
         { stReady1 with connection := some connReady1, session := some (connReady1.children 0) },
         ⟨1, 0⟩)
    ∧ connect_to_system cfg0 stReady2 =
        (.ok (),
         { stReady2 with connection := some connReady2, session := some (connReady2.children 0) },
         ⟨2, 3⟩)
    ∧ connect_to_system cfg0 stEmpty =
        (.error (wrapConnectError cfg0 (noSessionMessage cfg0)),
         { stEmpty with connection := some connEmpty }, ⟨2, 3⟩) :=
  ⟨(connection_opener_algorithm cfg0 stNullConn engNullConn ⟨.ok none⟩ rfl rfl).1 rfl,
   (connection_opener_algorithm cfg0 stReady1 engReady1 ⟨.ok (some connReady1)⟩ rfl rfl).2.1
     connReady1 rfl (by decide),
   (connection_opener_algorithm cfg0 stReady2 engReady2 ⟨.ok (some connReady2)⟩ rfl rfl).2.2.1
     connReady2 rfl rfl (by decide),
   (connection_opener_algorithm cfg0 stEmpty engEmpty ⟨.ok (some connEmpty)⟩ rfl rfl).2.2.2
     connEmpty rfl rfl rfl⟩

/-- Claim C1: whenever the body of `initialize_connection` — the
readiness poller, the connection opener or the credential submitter —
raises an exception `e`, leaving the handles in an arbitrary intermediate
state, `initialize_connection` re-raises exactly that same exception `e`
(same kind, same message) and its final state has all three handles
(`session`, `_connection`, `_sap_gui_app`) null: no partial-handle state
survives. -/
theorem init_failure_teardown (cfg : Config) (env : Env) (openNewLogon : Bool)
    (st0 st1 : AutomatorState) (e : PyError)
    (h : initBody cfg env openNewLogon st0 = (.error e, st1)) :
    initialize_connection cfg env openNewLogon st0 = (.error e, ⟨none, none, none⟩) := by
  simp [initialize_connection, h]

/-- Witness for C1: a failing launch (executable not found) is re-raised
unchanged and all three handles end up null. -/
theorem init_failure_teardown_witness :
    initialize_connection cfg0 envNotFound true initialState =
      (.error (.sapConnectionError ("Executável SAP não encontrado em " ++ cfg0.sap_exe_path)),
       ⟨none, none, none⟩) :=
  init_failure_teardown cfg0 envNotFound true initialState initialState
    (.sapConnectionError ("Executável SAP não encontrado em " ++ cfg0.sap_exe_path)) rfl

/-- Claim C10: calling `initialize_connection(open_new_logon=False)` on a
freshly constructed automator (all handles `None`, no engine ever
acquired) fails with a `SAPConnectionError` — the `AttributeError` from
dereferencing the null engine handle is caught by `_connect_to_system`
and wrapped into the connection-error kind, not surfaced as an
unclassified null-reference error — and all three handles are null
afterwards. -/
theorem init_fresh_without_logon (cfg : Config) (env : Env) :
    initialize_connection cfg env false initialState =
      (.error (wrapConnectError cfg noneAttributeMessage), ⟨none, none, none⟩) := rfl

/-- Claim C6: on any session stub whose client-id (Mandante) field lookup
raises — with any message — `_login` fails with the
`SAPConnectionError` kind carrying the fixed login-screen-not-detected
message (`Mandante não encontrado na tela`, as re-wrapped by the
classifier), and performs zero writes: no username, secret or language
field is set and the submit control is never activated. -/
theorem login_missing_mandt (cfg : Config) (s : Session) (st : AutomatorState) (m : String)
    (hs : st.session = some s) (hf : s.hasFindById = true)
    (hm : s.lookup mandtId = .error m) :
    login cfg st =
      (.error (.sapConnectionError ("Erro inesperado durante o login SAP: " ++ mandanteMessage)),
       []) := by
  have hb : loginBody cfg s = (.error mandanteMessage, []) := by
    simp [loginBody, hf, hm]
  have hc : classifyLoginError mandanteMessage =
      .sapConnectionError ("Erro inesperado durante o login SAP: " ++ mandanteMessage) := by
    rfl
  simp [login, hs, hb, hc]

/-- Witness for C6 on a stub whose Mandante lookup raises. -/
theorem login_missing_mandt_witness :
    login cfg0 stNoMandt =
      (.error (.sapConnectionError ("Erro inesperado durante o login SAP: " ++ mandanteMessage)),
       []) :=
  login_missing_mandt cfg0 sessNoMandt stNoMandt "screen mismatch" rfl rfl rfl

/-- Counterexample to claim C4: a status line of type `E` whose text is
`"element missing"` does not produce a `ConnectionError`-kind failure —
because `_login`'s `except` clause classifies by searching the exception
text for `"element"`, the rejecting-status `SAPConnectionError` is
re-raised as a `ValueError`. -/
theorem login_status_kind_cex :
    (login cfg0 stRejectElem).1 =
      .error (.valueError ("Erro ao encontrar elemento da GUI durante o login: "
        ++ ("Erro de login SAP: " ++ "element missing")))
    ∧ ∀ m, (login cfg0 stRejectElem).1 ≠ .error (.sapConnectionError m) := by
  have h1 : (login cfg0 stRejectElem).1 =
      .error (.valueError ("Erro ao encontrar elemento da GUI durante o login: "
        ++ ("Erro de login SAP: " ++ "element missing"))) := by rfl
  refine ⟨h1, ?_⟩
  intro m hm
  rw [h1] at hm
  simp at hm

/-- Claim C4 as amended: on a session stub whose every element lookup
succeeds, a rejecting status type (`E`/`A`/`X`, case-insensitively) makes
`_login` fail with an error whose message contains the status text
verbatim; that error is of the `ConnectionError` kind exactly when the
wrapped status message contains neither `"findById"` nor (lowercased)
`"element"` — otherwise the string-matching classifier turns it into a
`ValueError`.  A status type that is OK or carries no classification
yields success. -/
theorem login_status_classified (cfg : Config) (s : Session) (st : AutomatorState)
    (hs : st.session = some s) (hf : s.hasFindById = true)
    (hl : ∀ id, s.lookup id = .ok ()) :
    (rejectingTypes.contains (pyLower s.messageType) = true →
      (login cfg st).1 = .error (classifyLoginError ("Erro de login SAP: " ++ s.statusText))
      ∧ strContains
          (classifyLoginError ("Erro de login SAP: " ++ s.statusText)).message s.statusText = true
      ∧ (classifyLoginError ("Erro de login SAP: " ++ s.statusText)).isConnectionKind =
          !(strContains ("Erro de login SAP: " ++ s.statusText) "findById"
            || strContains (pyLower ("Erro de login SAP: " ++ s.statusText)) "element"))
    ∧ (rejectingTypes.contains (pyLower s.messageType) = false →
      (login cfg st).1 = .ok ()) := by
  constructor
  · intro hrej
    have hrej' : pyLower s.messageType ∈ rejectingTypes := by simpa using hrej
    have hb : loginBody cfg s = (.error ("Erro de login SAP: " ++ s.statusText),
        [WriteAction.setClient cfg.client] ++ [WriteAction.setUser cfg.user]
          ++ [WriteAction.setPassword cfg.password] ++ [WriteAction.setLanguage cfg.language]
          ++ [WriteAction.pressEnter]) := by
      simp [loginBody, hf, hl, hrej']
    refine ⟨by simp [login, hs, hb], ?_, classifyLoginError_kind _⟩
    rw [classifyLoginError_message]
    split <;> exact strContains_append_append _ "Erro de login SAP: " s.statusText
  · intro hok
    have hok' : pyLower s.messageType ∉ rejectingTypes := by simpa using hok
    simp [login, hs, loginBody, hf, hl, hok']

/-- Witness for C4's amended claim: a plain rejecting status text yields
the `SAPConnectionError` kind with the text preserved, and a type-`S`
status line yields success. -/
theorem login_status_classified_witness :
    ((login cfg0 stRejectPlain).1 =
        .error (classifyLoginError ("Erro de login SAP: " ++ "Senha incorreta"))
      ∧ strContains
          (classifyLoginError ("Erro de login SAP: " ++ "Senha incorreta")).message
          "Senha incorreta" = true
      ∧ (classifyLoginError ("Erro de login SAP: " ++ "Senha incorreta")).isConnectionKind =
          !(strContains ("Erro de login SAP: " ++ "Senha incorreta") "findById"
            || strContains (pyLower ("Erro de login SAP: " ++ "Senha incorreta")) "element"))
    ∧ (login cfg0 stTypeOk).1 = .ok () := by
  constructor
  · exact (login_status_classified cfg0 sessRejectPlain stRejectPlain rfl rfl
      (fun _ => rfl)).1 (by decide)
  · exact (login_status_classified cfg0 dummySession stTypeOk rfl rfl
      (fun _ => rfl)).2 (by decide)

/-- Counterexample to claim C5: a username-field lookup fault whose
message (`"controle nao localizado"`) contains neither `"findById"` nor
`"element"` is not classified as a `ValueError` — the string-matching
`except` clause of `_login` wraps it into a `SAPConnectionError`
instead. -/
theorem login_lookup_fault_cex :
    (login cfg0 stPlainFault).1 =
      .error (.sapConnectionError
        ("Erro inesperado durante o login SAP: " ++ "controle nao localizado"))
    ∧ ∀ m, (login cfg0 stPlainFault).1 ≠ .error (.valueError m) := by
  have h1 : (login cfg0 stPlainFault).1 =
      .error (.sapConnectionError
        ("Erro inesperado durante o login SAP: " ++ "controle nao localizado")) := by rfl
  refine ⟨h1, ?_⟩
  intro m hm
  rw [h1] at hm
  simp at hm

/-- Claim C5 as amended: a lookup fault with message `m` at any of the
non-client-id elements of the credential sequence (username, secret,
language, submit control, status line) makes `_login` fail with
`classifyLoginError m`, and that failure is of the `ValueError` kind
exactly when `m` contains `"findById"` or its lowercasing contains
`"element"`; otherwise it is (mis)classified as the `ConnectionError`
kind. -/
theorem login_lookup_fault_classified (cfg : Config) (s : Session) (st : AutomatorState)
    (target m : String)
    (hs : st.session = some s) (hf : s.hasFindById = true)
    (ht : target ∈ credentialFieldIds)
    (hfail : s.lookup target = .error m)
    (hok : ∀ id, id ≠ target → s.lookup id = .ok ()) :
    (login cfg st).1 = .error (classifyLoginError m)
    ∧ (classifyLoginError m).isConnectionKind =
        !(strContains m "findById" || strContains (pyLower m) "element") := by
  refine ⟨?_, classifyLoginError_kind m⟩
  simp only [credentialFieldIds, List.mem_cons, List.not_mem_nil, or_false] at ht
  rcases ht with rfl | rfl | rfl | rfl | rfl
  · simp [login, hs, loginBody, hf, hfail, hok mandtId (by decide)]
  · simp [login, hs, loginBody, hf, hfail, hok mandtId (by decide), hok bnameId (by decide)]
  · simp [login, hs, loginBody, hf, hfail, hok mandtId (by decide), hok bnameId (by decide),
      hok bcodeId (by decide)]
  · simp [login, hs, loginBody, hf, hfail, hok mandtId (by decide), hok bnameId (by decide),
      hok bcodeId (by decide), hok languId (by decide)]
  · simp [login, hs, loginBody, hf, hfail, hok mandtId (by decide), hok bnameId (by decide),
      hok bcodeId (by decide), hok languId (by decide), hok loginButtonId (by decide)]

/-- Witness for C5's amended claim: a language-field fault whose message
contains `"element"` is classified as a `ValueError`. -/
theorem login_lookup_fault_classified_witness :
    (login cfg0 stElemFault).1 = .error (classifyLoginError "element not found")
    ∧ (classifyLoginError "element not found").isConnectionKind =
        !(strContains "element not found" "findById"
          || strContains (pyLower "element not found") "element") := by
  exact login_lookup_fault_classified cfg0 sessElemFault stElemFault languId "element not found"
    rfl rfl (by decide) rfl
    (by intro id hid; simp [sessElemFault, dummySession, hid])

end SapAutomator
